import Mathlib

/-!
Shallow embedding of the tile-calculator core of the `inventory` web
application (src/models/calculator.py, src/routes/calculator.py,
src/models/calculation_bill.py, src/models/calculation_bill_item.py).

Python floats are modelled as rationals (`ℚ`), Python ints as `ℤ`,
Python `None`-able parameters as `Option`, and `raise ValueError` as
`Except.error` with the error taxonomy named by the specification.
Python truthiness tests on numbers (`if tiles_per_box and ...`) are
modelled as disequality with zero, and truthiness of an optional string
as "present and non-empty".
-/

/-- Error taxonomy of the specification (§7): the calculator raises
`ValueError` for non-positive geometry (`InvalidDimension`) and for an
unresolvable tile specification (`InvalidTileSpec`); the commit path
rejects an empty cart (`EmptyCart`). -/
inductive CalcError where
  | InvalidDimension
  | InvalidTileSpec
  | EmptyCart
deriving DecidableEq, Repr

/-- `round_up` in src/models/calculator.py: `math.ceil`. -/
def round_up (x : ℚ) : ℤ := ⌈x⌉

/-- Python's built-in `round` to an integer: round half to even
(banker's rounding), used by `round(value, 2)` in the calculator. -/
def roundHalfEven (x : ℚ) : ℤ :=
  if x - ⌊x⌋ < 1/2 then ⌊x⌋
  else if 1/2 < x - ⌊x⌋ then ⌊x⌋ + 1
  else if ⌊x⌋ % 2 = 0 then ⌊x⌋ else ⌊x⌋ + 1

/-- Python `round(x, 2)`: round to two decimal places, half to even. -/
def round2 (x : ℚ) : ℚ := (roundHalfEven (x * 100) : ℚ) / 100

/-- One entry of a tile preset table: tiles per box and square-foot
coverage per box. -/
structure TileConfig where
  tiles_per_box : ℤ
  coverage_per_box : ℚ
deriving DecidableEq, Repr

/-- `FLOOR_TILES` table in src/models/calculator.py. -/
def FLOOR_TILES : List (String × TileConfig) :=
  [("1x1", ⟨10, 10⟩), ("2x2", ⟨4, 16⟩), ("4x2", ⟨2, 16⟩)]

/-- `WALL_TILES` table in src/models/calculator.py. -/
def WALL_TILES : List (String × TileConfig) :=
  [("12x8", ⟨12, 8⟩), ("10x15", ⟨8, 9⟩), ("12x18", ⟨6, 9⟩)]

/-- Python `tile_size in table` plus `table[tile_size]`. -/
def lookupTile (tbl : List (String × TileConfig)) (key : String) : Option TileConfig :=
  (tbl.find? (fun p => p.1 == key)).map (·.2)

/-- The `elif tiles_per_box and coverage_per_box:` branch shared by all
four box-count methods: both explicit values must be present and truthy
(non-zero) or the method raises. On success the tile size reported is
the string "custom". -/
def resolveCustomSpec (tiles_per_box : Option ℤ) (coverage_per_box : Option ℚ) :
    Except CalcError (String × ℤ × ℚ) :=
  match tiles_per_box, coverage_per_box with
  | some t, some c =>
      if t ≠ 0 ∧ c ≠ 0 then .ok ("custom", t, c) else .error .InvalidTileSpec
  | _, _ => .error .InvalidTileSpec

/-- The tile-spec resolution prologue shared by all four box-count
methods of `TileCalculator`: `if tile_size and tile_size in table:` use
the preset; otherwise fall through to the explicit-pair branch. -/
def resolveTileSpec (tbl : List (String × TileConfig)) (tile_size : Option String)
    (tiles_per_box : Option ℤ) (coverage_per_box : Option ℚ) :
    Except CalcError (String × ℤ × ℚ) :=
  match tile_size with
  | some s =>
      if s.isEmpty then resolveCustomSpec tiles_per_box coverage_per_box
      else
        match lookupTile tbl s with
        | some cfg => .ok (s, cfg.tiles_per_box, cfg.coverage_per_box)
        | none => resolveCustomSpec tiles_per_box coverage_per_box
  | none => resolveCustomSpec tiles_per_box coverage_per_box

/-- Result dictionary of `calculate_floor_boxes_from_area`. -/
structure FloorBoxResult where
  area : ℤ
  tile_size : String
  tiles_per_box : ℤ
  coverage_per_box : ℚ
  boxes_exact : ℚ
  boxes_needed : ℤ
deriving DecidableEq, Repr

/-- Result dictionary of `calculate_wall_boxes_from_area`. -/
structure WallBoxResult where
  wall_area : ℤ
  door_deducted : Bool
  tile_size : String
  tiles_per_box : ℤ
  coverage_per_box : ℚ
  boxes_exact : ℚ
  boxes_needed : ℤ
deriving DecidableEq, Repr

/-- Result dictionary of `calculate_wall_boxes` (geometry variant). -/
structure WallBoxGeomResult where
  perimeter : ℤ
  wall_area : ℤ
  door_deducted : Bool
  tile_size : String
  tiles_per_box : ℤ
  coverage_per_box : ℚ
  boxes_exact : ℚ
  boxes_needed : ℤ
deriving DecidableEq, Repr

namespace TileCalculator

/-- `TileCalculator.calculate_floor_area`: rejects non-positive
dimensions, otherwise `ceil(width * length)`. -/
def calculate_floor_area (width length : ℚ) : Except CalcError ℤ :=
  if width ≤ 0 ∨ length ≤ 0 then .error .InvalidDimension
  else .ok (round_up (width * length))

/-- `TileCalculator.calculate_wall_area`: rejects non-positive
dimensions; perimeter `2*(width+length)`, minus 2 when the door is
deducted, rounded up; wall area `perimeter * height` rounded up. -/
def calculate_wall_area (width length height : ℚ) (deduct_door : Bool) :
    Except CalcError (ℤ × ℤ) :=
  if width ≤ 0 ∨ length ≤ 0 ∨ height ≤ 0 then .error .InvalidDimension
  else
    let perimeter := round_up (if deduct_door then 2 * (width + length) - 2
                               else 2 * (width + length))
    let wall_area := round_up ((perimeter : ℚ) * height)
    .ok (perimeter, wall_area)

/-- `TileCalculator.calculate_floor_boxes_from_area`: resolve the tile
spec, round the supplied area up, divide by coverage, round the
quotient up. -/
def calculate_floor_boxes_from_area (area : ℚ) (tile_size : Option String)
    (tiles_per_box : Option ℤ) (coverage_per_box : Option ℚ) :
    Except CalcError FloorBoxResult :=
  match resolveTileSpec FLOOR_TILES tile_size tiles_per_box coverage_per_box with
  | .error e => .error e
  | .ok (ts, tpb, cpb) =>
      let a := round_up area
      let boxes_exact : ℚ := (a : ℚ) / cpb
      .ok { area := a, tile_size := ts, tiles_per_box := tpb, coverage_per_box := cpb,
            boxes_exact := round2 boxes_exact, boxes_needed := round_up boxes_exact }

/-- `TileCalculator.calculate_wall_boxes_from_area`: same box-count math
as the floor variant over the wall preset table; `deduct_door` is
recorded for display only. -/
def calculate_wall_boxes_from_area (wall_area : ℚ) (tile_size : Option String)
    (deduct_door : Bool) (tiles_per_box : Option ℤ) (coverage_per_box : Option ℚ) :
    Except CalcError WallBoxResult :=
  match resolveTileSpec WALL_TILES tile_size tiles_per_box coverage_per_box with
  | .error e => .error e
  | .ok (ts, tpb, cpb) =>
      let a := round_up wall_area
      let boxes_exact : ℚ := (a : ℚ) / cpb
      .ok { wall_area := a, door_deducted := deduct_door, tile_size := ts,
            tiles_per_box := tpb, coverage_per_box := cpb,
            boxes_exact := round2 boxes_exact, boxes_needed := round_up boxes_exact }

/-- `TileCalculator.calculate_wall_boxes` (geometry variant): resolve
the tile spec, derive perimeter and wall area from the room geometry,
then the shared box-count math. -/
def calculate_wall_boxes (width length height : ℚ) (tile_size : Option String)
    (deduct_door : Bool) (tiles_per_box : Option ℤ) (coverage_per_box : Option ℚ) :
    Except CalcError WallBoxGeomResult :=
  match resolveTileSpec WALL_TILES tile_size tiles_per_box coverage_per_box with
  | .error e => .error e
  | .ok (ts, tpb, cpb) =>
      match calculate_wall_area width length height deduct_door with
      | .error e => .error e
      | .ok (perimeter, wall_area) =>
          let boxes_exact : ℚ := (wall_area : ℚ) / cpb
          .ok { perimeter := perimeter, wall_area := wall_area,
                door_deducted := deduct_door, tile_size := ts,
                tiles_per_box := tpb, coverage_per_box := cpb,
                boxes_exact := round2 boxes_exact, boxes_needed := round_up boxes_exact }

end TileCalculator

/-- The direct-area (`dimension_mode == 'sqfeet'`) wall path of the
`/calculate-wall` route (src/routes/calculator.py lines 184-190): when
door deduction is requested the route subtracts the fixed 21 sq ft
standard door area from the caller-supplied wall area before handing it
to `calculate_wall_boxes_from_area`. -/
def calculate_wall_direct (total_sqfeet : ℚ) (deduct_door : Bool)
    (tile_size : Option String) (tiles_per_box : Option ℤ) (coverage_per_box : Option ℚ) :
    Except CalcError WallBoxResult :=
  let wall_area := if deduct_door then total_sqfeet - 21 else total_sqfeet
  TileCalculator.calculate_wall_boxes_from_area wall_area tile_size deduct_door
    tiles_per_box coverage_per_box

/-- Line-item price assembly shared by both routes
(src/routes/calculator.py lines 149-152 and 280-283):
`total_price = None; if price_per_box: total_price = price_per_box *
boxes_needed`. The Python truthiness test makes a price of `0` behave
like an absent price. -/
def assemble_total_price (price_per_box : Option ℚ) (boxes_needed : ℤ) : Option ℚ :=
  match price_per_box with
  | some p => if p ≠ 0 then some (p * (boxes_needed : ℚ)) else none
  | none => none

/-- The two fields of a staged cart item that the `/save-bill` route
reads when aggregating (`item.get('boxes_needed', ...)` and
`item.get('total_price')`). `total_price` is `Option`al: an
absent price is distinct from a price of zero. -/
structure CartItem where
  boxes_needed : ℤ
  total_price : Option ℚ
deriving DecidableEq, Repr

/-- The aggregate fields of a persisted `CalculationBill`. -/
structure Bill where
  total_boxes : ℤ
  total_price : ℚ
deriving DecidableEq, Repr

/-- The contribution of one cart item to the bill's `total_price` in
`save_bill`: `if item.get('total_price'): total_price +=
item['total_price']` — a Python truthiness test, so an absent or zero
price contributes nothing. -/
def priceContribution (item : CartItem) : ℚ :=
  match item.total_price with
  | some p => if p ≠ 0 then p else 0
  | none => 0

/-- The `/save-bill` route (src/routes/calculator.py lines 354-391),
viewed as a function of the session cart: an empty cart is rejected
with the cart untouched; otherwise the bill aggregates are the sums
over the cart and the session cart is reset to `[]`. Returns the
commit outcome together with the cart state after the request. -/
def save_bill (cart : List CartItem) : Except CalcError Bill × List CartItem :=
  if cart.isEmpty then (.error .EmptyCart, cart)
  else
    (.ok { total_boxes := (cart.map (·.boxes_needed)).sum,
           total_price := (cart.map priceContribution).sum },
     [])

/-- A persisted `calculation_bills` row (the columns the atomicity
claim is about). -/
structure BillRow where
  id : ℤ
  total_boxes : ℤ
  total_price : ℚ
deriving DecidableEq, Repr

/-- A persisted `calculation_bill_items` row (the columns the
atomicity claim is about). -/
structure ItemRow where
  bill_id : ℤ
  boxes_needed : ℤ
  total_price : Option ℚ
deriving DecidableEq, Repr

/-- The durable store visible to concurrent readers: the two tables
touched by a bill commit. -/
structure DBState where
  bills : List BillRow
  items : List ItemRow
deriving DecidableEq, Repr

/-- `CalculationBill.create`: inserts the bill row with
`total_boxes = 0, total_price = 0` and commits the connection, so the
new row is durably visible with zero aggregates. -/
def CalculationBill.create (db : DBState) (bill_id : ℤ) : DBState :=
  { db with bills := db.bills ++ [{ id := bill_id, total_boxes := 0, total_price := 0 }] }

/-- `CalculationBillItem.create`: inserts one item row under the given
bill and commits the connection. -/
def CalculationBillItem.create (bill_id : ℤ) (item : CartItem) (db : DBState) : DBState :=
  { db with items := db.items ++
      [{ bill_id := bill_id, boxes_needed := item.boxes_needed,
         total_price := item.total_price }] }

/-- `CalculationBill.update_totals`: overwrites the aggregates of the
given bill and commits the connection. -/
def CalculationBill.update_totals (bill_id total_boxes : ℤ) (total_price : ℚ)
    (db : DBState) : DBState :=
  { db with bills := db.bills.map (fun b =>
      if b.id == bill_id then { b with total_boxes := total_boxes,
                                       total_price := total_price }
      else b) }

/-- Runs the per-item inserts of `save_bill` in order, recording the
durable state committed after each insert, and returning the final
state. -/
def insertItemsRun (bill_id : ℤ) (items : List CartItem) (db : DBState) :
    List DBState × DBState :=
  match items with
  | [] => ([], db)
  | it :: rest =>
      let db' := CalculationBillItem.create bill_id it db
      let (tr, fin) := insertItemsRun bill_id rest db'
      (db' :: tr, fin)

/-- The sequence of durable states a concurrent reader can observe
while `/save-bill` commits a non-empty cart: `CalculationBill.create`,
each `CalculationBillItem.create`, and `CalculationBill.update_totals`
each open their own connection and `commit()` before returning, so
every one of these intermediate states is visible to other readers. -/
def save_bill_commit_trace (db : DBState) (bill_id : ℤ) (cart : List CartItem) :
    List DBState :=
  let s1 := CalculationBill.create db bill_id
  let (tr, fin) := insertItemsRun bill_id cart s1
  let total_boxes := (cart.map (·.boxes_needed)).sum
  let total_price := (cart.map priceContribution).sum
  s1 :: tr ++ [CalculationBill.update_totals bill_id total_boxes total_price fin]

/-- A stored bill as seen by the retention sweep: its id and creation
time. Time is measured in days, so `now - days` is the cutoff instant
`datetime.now() - timedelta(days=days)`. -/
structure StoredBill where
  id : ℤ
  created_at : ℚ
deriving DecidableEq, Repr

/-- `CalculationBill.delete_older_than_days`: `DELETE FROM
calculation_bills WHERE created_at < cutoff` with `cutoff = now -
days`; returns the remaining table and the SQL rowcount (the number of
rows deleted). -/
def delete_older_than_days (now days : ℚ) (bills : List StoredBill) :
    List StoredBill × ℕ :=
  let cutoff := now - days
  (bills.filter (fun b => !decide (b.created_at < cutoff)),
   (bills.filter (fun b => decide (b.created_at < cutoff))).length)

/-- `CalculationBill.get_count_older_than_days`: `SELECT COUNT(*) ...
WHERE created_at < cutoff` with the same strict cutoff. -/
def get_count_older_than_days (now days : ℚ) (bills : List StoredBill) : ℕ :=
  (bills.filter (fun b => decide (b.created_at < now - days))).length

/-- Rounding half to even never exceeds the ceiling. -/
theorem roundHalfEven_le_ceil (x : ℚ) : roundHalfEven x ≤ ⌈x⌉ := by
  unfold roundHalfEven
  split_ifs with h1 h2 h3
  · exact Int.floor_le_ceil x
  all_goals
    have hlt : (⌊x⌋ : ℚ) < x := by
      have hhalf : (1 : ℚ)/2 ≤ x - ⌊x⌋ := le_of_not_lt h1
      linarith
  all_goals
    have hc : ⌊x⌋ < ⌈x⌉ := Int.lt_ceil.mpr hlt
  · omega
  · omega
  · omega

/-- Rounding half to even of an integer is that integer. -/
theorem roundHalfEven_intCast (n : ℤ) : roundHalfEven ((n : ℚ)) = n := by
  unfold roundHalfEven
  rw [Int.floor_intCast]
  have h : (n : ℚ) - n < 1/2 := by norm_num
  rw [if_pos h]

/-- Evaluation rule for `round2` when the scaled value is integral. -/
theorem round2_eval (q : ℚ) (m : ℤ) (h : q * 100 = (m : ℚ)) : round2 q = (m : ℚ) / 100 := by
  unfold round2
  rw [h, roundHalfEven_intCast]

/-- Two-decimal rounding never exceeds the ceiling: the displayed
`boxes_exact` can never overshoot `boxes_needed`. -/
theorem round2_le_ceil (q : ℚ) : round2 q ≤ (⌈q⌉ : ℚ) := by
  have h1 : roundHalfEven (q * 100) ≤ ⌈q * 100⌉ := roundHalfEven_le_ceil _
  have h2 : ⌈q * 100⌉ ≤ ⌈q⌉ * 100 := by
    rw [Int.ceil_le]
    push_cast
    nlinarith [Int.le_ceil q]
  have h3 : (roundHalfEven (q * 100) : ℚ) ≤ (⌈q⌉ : ℚ) * 100 := by
    have h4 := le_trans h1 h2
    exact_mod_cast h4
  unfold round2
  rw [div_le_iff₀ (by norm_num : (0:ℚ) < 100)]
  linarith

/-- A list splits into the part satisfying a predicate and the part
failing it. -/
theorem filter_partition_length {α : Type} (p : α → Bool) (l : List α) :
    (l.filter p).length + (l.filter (fun x => !(p x))).length = l.length := by
  induction l with
  | nil => simp
  | cons x xs ih => cases hx : p x <;> simp [List.filter_cons, hx] <;> omega

/-- The truthiness-guarded price contribution of `save_bill` agrees
with "absent contributes 0": a present zero price adds zero either
way. -/
theorem priceContribution_eq_getD (item : CartItem) :
    priceContribution item = item.total_price.getD 0 := by
  unfold priceContribution
  cases h : item.total_price with
  | none => rfl
  | some p =>
      by_cases hp : p = 0
      · simp [hp]
      · simp [hp]

/-- The explicit-pair branch accepts any pair of non-zero values. -/
theorem resolveCustom_pos (tbl : List (String × TileConfig)) (t : ℤ) (c : ℚ)
    (ht : t ≠ 0) (hc : c ≠ 0) :
    resolveTileSpec tbl none (some t) (some c) = .ok ("custom", t, c) := by
  unfold resolveTileSpec resolveCustomSpec
  exact if_pos ⟨ht, hc⟩

/-- Shape of any successful floor direct-area calculation: the area is
rounded up first, and `boxes_needed` is the ceiling of the quotient of
the rounded area by the coverage. -/
theorem floor_from_area_fields (a : ℚ) (ts : Option String) (tpb : Option ℤ)
    (cpb : Option ℚ) (r : FloorBoxResult)
    (h : TileCalculator.calculate_floor_boxes_from_area a ts tpb cpb = .ok r) :
    r.area = ⌈a⌉ ∧ r.boxes_exact = round2 ((⌈a⌉ : ℚ) / r.coverage_per_box) ∧
    r.boxes_needed = ⌈(⌈a⌉ : ℚ) / r.coverage_per_box⌉ := by
  unfold TileCalculator.calculate_floor_boxes_from_area at h
  split at h
  · exact absurd h (by simp)
  · rw [Except.ok.injEq] at h
    subst h
    exact ⟨rfl, rfl, rfl⟩

/-- Shape of any successful wall direct-area calculation. -/
theorem wall_from_area_fields (a : ℚ) (ts : Option String) (dd : Bool)
    (tpb : Option ℤ) (cpb : Option ℚ) (r : WallBoxResult)
    (h : TileCalculator.calculate_wall_boxes_from_area a ts dd tpb cpb = .ok r) :
    r.wall_area = ⌈a⌉ ∧ r.door_deducted = dd ∧
    r.boxes_exact = round2 ((⌈a⌉ : ℚ) / r.coverage_per_box) ∧
    r.boxes_needed = ⌈(⌈a⌉ : ℚ) / r.coverage_per_box⌉ := by
  unfold TileCalculator.calculate_wall_boxes_from_area at h
  split at h
  · exact absurd h (by simp)
  · rw [Except.ok.injEq] at h
    subst h
    exact ⟨rfl, rfl, rfl, rfl⟩

/-- Closed form of the floor direct-area calculation once the tile
spec has resolved. -/
theorem floor_from_area_eval (a : ℚ) (ts : Option String) (tpb : Option ℤ)
    (cpb : Option ℚ) (s : String) (t : ℤ) (c : ℚ)
    (hres : resolveTileSpec FLOOR_TILES ts tpb cpb = .ok (s, t, c)) :
    TileCalculator.calculate_floor_boxes_from_area a ts tpb cpb =
      .ok ⟨⌈a⌉, s, t, c, round2 ((⌈a⌉ : ℚ) / c), ⌈(⌈a⌉ : ℚ) / c⌉⟩ := by
  unfold TileCalculator.calculate_floor_boxes_from_area
  rw [hres]
  rfl

/-- Closed form of the wall direct-area calculation once the tile spec
has resolved. -/
theorem wall_from_area_eval (a : ℚ) (ts : Option String) (dd : Bool)
    (tpb : Option ℤ) (cpb : Option ℚ) (s : String) (t : ℤ) (c : ℚ)
    (hres : resolveTileSpec WALL_TILES ts tpb cpb = .ok (s, t, c)) :
    TileCalculator.calculate_wall_boxes_from_area a ts dd tpb cpb =
      .ok ⟨⌈a⌉, dd, s, t, c, round2 ((⌈a⌉ : ℚ) / c), ⌈(⌈a⌉ : ℚ) / c⌉⟩ := by
  unfold TileCalculator.calculate_wall_boxes_from_area
  rw [hres]
  rfl

/-- Claim C1: for every positive area `a` and positive coverage `c`
(whether resolved from a preset key or supplied as an explicit pair),
both direct-area box-count operations compute
`boxes_needed = ceil(ceil(a) / c)` and `boxes_needed >= boxes_exact`;
no integrality assumption on `a` or on the quotient is needed, so the
property holds in particular when both are already integral. -/
theorem boxes_needed_is_ceiling (a : ℚ) (ts₁ ts₂ : Option String)
    (tpb₁ tpb₂ : Option ℤ) (cpb₁ cpb₂ : Option ℚ) (dd : Bool)
    (fr : FloorBoxResult) (wr : WallBoxResult)
    (ha : 0 < a)
    (hf : TileCalculator.calculate_floor_boxes_from_area a ts₁ tpb₁ cpb₁ = .ok fr)
    (hfc : 0 < fr.coverage_per_box)
    (hw : TileCalculator.calculate_wall_boxes_from_area a ts₂ dd tpb₂ cpb₂ = .ok wr)
    (hwc : 0 < wr.coverage_per_box) :
    (fr.boxes_needed = ⌈(⌈a⌉ : ℚ) / fr.coverage_per_box⌉ ∧
      fr.boxes_exact ≤ (fr.boxes_needed : ℚ)) ∧
    (wr.boxes_needed = ⌈(⌈a⌉ : ℚ) / wr.coverage_per_box⌉ ∧
      wr.boxes_exact ≤ (wr.boxes_needed : ℚ)) := by
  obtain ⟨hfa, hfe, hfn⟩ := floor_from_area_fields _ _ _ _ _ hf
  obtain ⟨hwa, hwd, hwe, hwn⟩ := wall_from_area_fields _ _ _ _ _ _ hw
  refine ⟨⟨hfn, ?_⟩, hwn, ?_⟩
  · rw [hfe, hfn]
    exact round2_le_ceil _
  · rw [hwe, hwn]
    exact round2_le_ceil _

/-- Concrete evaluation: floor, direct area 104, preset "2x2"
(coverage 16): boxes_exact 6.5, boxes_needed 7 (spec scenario A). -/
theorem floor_eval_104_preset_2x2 :
    TileCalculator.calculate_floor_boxes_from_area 104 (some "2x2") none none =
      .ok ⟨104, "2x2", 4, 16, 13/2, 7⟩ := by
  rw [floor_from_area_eval 104 (some "2x2") none none "2x2" 4 16 rfl]
  have h104 : (⌈(104:ℚ)⌉ : ℤ) = 104 := by
    rw [Int.ceil_eq_iff]
    constructor <;> norm_num
  rw [h104]
  have hbe : round2 (((104:ℤ) : ℚ) / 16) = 13/2 := by
    rw [round2_eval _ 650 (by push_cast; norm_num)]
    norm_num
  have hbn : (⌈((104:ℤ) : ℚ) / 16⌉ : ℤ) = 7 := by
    rw [Int.ceil_eq_iff]
    constructor <;> push_cast <;> norm_num
  rw [hbe, hbn]

/-- Concrete evaluation: wall, direct area 104, explicit pair
(2 tiles, 8 sq ft per box): boxes_exact 13, boxes_needed 13. -/
theorem wall_eval_104_custom :
    TileCalculator.calculate_wall_boxes_from_area 104 none true (some 2) (some 8) =
      .ok ⟨104, true, "custom", 2, 8, 13, 13⟩ := by
  rw [wall_from_area_eval 104 none true (some 2) (some 8) "custom" 2 8
      (resolveCustom_pos WALL_TILES 2 8 (by norm_num) (by norm_num))]
  have h104 : (⌈(104:ℚ)⌉ : ℤ) = 104 := by
    rw [Int.ceil_eq_iff]
    constructor <;> norm_num
  rw [h104]
  have hbe : round2 (((104:ℤ) : ℚ) / 8) = 13 := by
    rw [round2_eval _ 1300 (by push_cast; norm_num)]
    norm_num
  have hbn : (⌈((104:ℤ) : ℚ) / 8⌉ : ℤ) = 13 := by
    rw [Int.ceil_eq_iff]
    constructor <;> push_cast <;> norm_num
  rw [hbe, hbn]

/-- Witness for C1 at area 104 with floor preset "2x2" (coverage 16)
and an explicit wall pair (2 tiles, 8 sq ft per box). -/
theorem boxes_needed_is_ceiling_witness :
    (0:ℚ) < 104 ∧
    (((7:ℤ) = ⌈((⌈(104:ℚ)⌉ : ℤ) : ℚ) / 16⌉ ∧ (13/2 : ℚ) ≤ ((7:ℤ) : ℚ)) ∧
     ((13:ℤ) = ⌈((⌈(104:ℚ)⌉ : ℤ) : ℚ) / 8⌉ ∧ (13 : ℚ) ≤ ((13:ℤ) : ℚ))) :=
  ⟨by norm_num,
   boxes_needed_is_ceiling 104 (some "2x2") none none (some 2) none (some 8) true
     _ _ (by norm_num) floor_eval_104_preset_2x2 (show (0:ℚ) < 16 by norm_num)
     wall_eval_104_custom (show (0:ℚ) < 8 by norm_num)⟩

/-- Claim C2: the direct-area wall path of the `/calculate-wall` route
subtracts exactly 21 sq ft before the engine rounds the area up and
divides by the coverage; with no door deduction the supplied area is
used unmodified. -/
theorem wall_direct_door_deduction (a : ℚ) (ts : Option String) (tpb : Option ℤ)
    (cpb : Option ℚ) (dd : Bool) (r : WallBoxResult)
    (h : calculate_wall_direct a dd ts tpb cpb = .ok r) :
    r.wall_area = (if dd then ⌈a - 21⌉ else ⌈a⌉) ∧
    r.boxes_needed = ⌈(r.wall_area : ℚ) / r.coverage_per_box⌉ := by
  unfold calculate_wall_direct at h
  obtain ⟨h1, h2, h3, h4⟩ := wall_from_area_fields _ _ _ _ _ _ h
  constructor
  · rw [h1]
    cases dd <;> simp
  · rw [h4, h1]

/-- Concrete evaluation of the route's direct-area wall path: supplied
area 121 with door deduction becomes 100, then 10 boxes at coverage
10. -/
theorem wall_direct_eval_121 :
    calculate_wall_direct 121 true none (some 5) (some 10) =
      .ok ⟨100, true, "custom", 5, 10, 10, 10⟩ := by
  show TileCalculator.calculate_wall_boxes_from_area ((121:ℚ) - 21) none true
    (some 5) (some 10) = _
  rw [wall_from_area_eval ((121:ℚ) - 21) none true (some 5) (some 10) "custom" 5 10
      (resolveCustom_pos WALL_TILES 5 10 (by norm_num) (by norm_num))]
  have h100 : (⌈(121:ℚ) - 21⌉ : ℤ) = 100 := by
    rw [Int.ceil_eq_iff]
    constructor <;> norm_num
  rw [h100]
  have hbe : round2 (((100:ℤ) : ℚ) / 10) = 10 := by
    rw [round2_eval _ 1000 (by push_cast; norm_num)]
    norm_num
  have hbn : (⌈((100:ℤ) : ℚ) / 10⌉ : ℤ) = 10 := by
    rw [Int.ceil_eq_iff]
    constructor <;> push_cast <;> norm_num
  rw [hbe, hbn]

/-- Witness for C2: area 121 with door deduction yields wall_area
`ceil(121 - 21) = 100` and 10 boxes at coverage 10. -/
theorem wall_direct_door_deduction_witness :
    calculate_wall_direct 121 true none (some 5) (some 10) =
      .ok ⟨100, true, "custom", 5, 10, 10, 10⟩ ∧
    (100:ℤ) = (if true then ⌈(121:ℚ) - 21⌉ else ⌈(121:ℚ)⌉) ∧
    (10:ℤ) = ⌈((100:ℤ) : ℚ) / 10⌉ :=
  ⟨wall_direct_eval_121,
   (wall_direct_door_deduction 121 none (some 5) (some 10) true _ wall_direct_eval_121).1,
   (wall_direct_door_deduction 121 none (some 5) (some 10) true _ wall_direct_eval_121).2⟩

/-- Claim C3 counterexample: an explicit pair in which both values are
negative is accepted by the floor box-count operation, not rejected
with InvalidTileSpec, because the source only tests Python truthiness
(non-zero), never positivity. -/
theorem negative_tile_spec_not_rejected :
    TileCalculator.calculate_floor_boxes_from_area 100 none (some (-1)) (some (-1)) ≠
      Except.error CalcError.InvalidTileSpec := by
  rw [floor_from_area_eval 100 none (some (-1)) (some (-1)) "custom" (-1) (-1)
      (resolveCustom_pos FLOOR_TILES (-1) (-1) (by norm_num) (by norm_num))]
  simp

/-- Claim C3 amended: with no preset key and an explicit pair supplied,
both direct-area box-count operations fail with InvalidTileSpec exactly
when either value is zero; negative values are accepted like positive
ones, and a pair with both fields strictly positive is never
rejected. -/
theorem explicit_pair_rejected_iff_zero (a : ℚ) (t : ℤ) (c : ℚ) (dd : Bool) :
    (TileCalculator.calculate_floor_boxes_from_area a none (some t) (some c) =
        .error .InvalidTileSpec ↔ t = 0 ∨ c = 0) ∧
    (TileCalculator.calculate_wall_boxes_from_area a none dd (some t) (some c) =
        .error .InvalidTileSpec ↔ t = 0 ∨ c = 0) := by
  by_cases h0 : t = 0 ∨ c = 0
  · have hne : ¬ (t ≠ 0 ∧ c ≠ 0) := by tauto
    have hres : resolveTileSpec FLOOR_TILES none (some t) (some c) =
        .error .InvalidTileSpec := by
      unfold resolveTileSpec resolveCustomSpec
      exact if_neg hne
    have hres2 : resolveTileSpec WALL_TILES none (some t) (some c) =
        .error .InvalidTileSpec := by
      unfold resolveTileSpec resolveCustomSpec
      exact if_neg hne
    constructor
    · unfold TileCalculator.calculate_floor_boxes_from_area
      rw [hres]
      exact iff_of_true rfl h0
    · unfold TileCalculator.calculate_wall_boxes_from_area
      rw [hres2]
      exact iff_of_true rfl h0
  · push_neg at h0
    obtain ⟨ht, hc⟩ := h0
    constructor
    · rw [floor_from_area_eval a none (some t) (some c) "custom" t c
        (resolveCustom_pos FLOOR_TILES t c ht hc)]
      exact iff_of_false (by simp) (by simp [ht, hc])
    · rw [wall_from_area_eval a none dd (some t) (some c) "custom" t c
        (resolveCustom_pos WALL_TILES t c ht hc)]
      exact iff_of_false (by simp) (by simp [ht, hc])

/-- Claim C10: the direct-area variants perform no positivity check on
the area: any non-positive area with a valid (strictly positive) tile
spec yields a result with non-positive boxes_needed instead of an
InvalidDimension failure. -/
theorem direct_area_accepts_nonpositive (a : ℚ) (t : ℤ) (c : ℚ) (dd : Bool)
    (ha : a ≤ 0) (ht : 0 < t) (hc : 0 < c) :
    (∃ r : FloorBoxResult,
        TileCalculator.calculate_floor_boxes_from_area a none (some t) (some c) = .ok r ∧
        r.boxes_needed ≤ 0) ∧
    (∃ r : WallBoxResult,
        TileCalculator.calculate_wall_boxes_from_area a none dd (some t) (some c) = .ok r ∧
        r.boxes_needed ≤ 0) := by
  have hceil : ⌈(⌈a⌉ : ℚ) / c⌉ ≤ 0 := by
    have h1 : ⌈a⌉ ≤ 0 := Int.ceil_le.mpr (by exact_mod_cast ha)
    have h2 : ((⌈a⌉ : ℤ) : ℚ) ≤ 0 := by exact_mod_cast h1
    have h3 : (⌈a⌉ : ℚ) / c ≤ 0 := div_nonpos_of_nonpos_of_nonneg h2 hc.le
    exact Int.ceil_le.mpr (by exact_mod_cast h3)
  exact ⟨⟨_, floor_from_area_eval a none (some t) (some c) "custom" t c
        (resolveCustom_pos FLOOR_TILES t c ht.ne' hc.ne'), hceil⟩,
    ⟨_, wall_from_area_eval a none dd (some t) (some c) "custom" t c
        (resolveCustom_pos WALL_TILES t c ht.ne' hc.ne'), hceil⟩⟩

/-- Witness for C10 at area -5 with the valid explicit pair
(4 tiles, 16 sq ft per box). -/
theorem direct_area_accepts_nonpositive_witness :
    (-5 : ℚ) ≤ 0 ∧ (0:ℤ) < 4 ∧ (0:ℚ) < 16 ∧
    ((∃ r : FloorBoxResult,
        TileCalculator.calculate_floor_boxes_from_area (-5) none (some 4) (some 16) = .ok r ∧
        r.boxes_needed ≤ 0) ∧
     (∃ r : WallBoxResult,
        TileCalculator.calculate_wall_boxes_from_area (-5) none true (some 4) (some 16) = .ok r ∧
        r.boxes_needed ≤ 0)) :=
  ⟨by norm_num, by norm_num, by norm_num,
   direct_area_accepts_nonpositive (-5) 4 16 true (by norm_num) (by norm_num) (by norm_num)⟩

/-- Claim C7: for positive width, length and height the geometry-based
wall calculation returns perimeter `ceil(2*(width+length) - 2)` with
door deduction (and `ceil(2*(width+length))` without) and wall area
`ceil(perimeter * height)`; it fails with InvalidDimension whenever
width, length or height is zero or negative. -/
theorem wall_area_geometry (w l h : ℚ) :
    (0 < w → 0 < l → 0 < h →
      TileCalculator.calculate_wall_area w l h true =
        .ok (⌈2*(w+l) - 2⌉, ⌈((⌈2*(w+l) - 2⌉ : ℤ) : ℚ) * h⌉) ∧
      TileCalculator.calculate_wall_area w l h false =
        .ok (⌈2*(w+l)⌉, ⌈((⌈2*(w+l)⌉ : ℤ) : ℚ) * h⌉)) ∧
    ((w ≤ 0 ∨ l ≤ 0 ∨ h ≤ 0) → ∀ dd,
      TileCalculator.calculate_wall_area w l h dd = .error .InvalidDimension) := by
  constructor
  · intro hw hl hh
    have hcond : ¬ (w ≤ 0 ∨ l ≤ 0 ∨ h ≤ 0) := by push_neg; exact ⟨hw, hl, hh⟩
    constructor
    · unfold TileCalculator.calculate_wall_area
      rw [if_neg hcond]
      rfl
    · unfold TileCalculator.calculate_wall_area
      rw [if_neg hcond]
      rfl
  · intro hcond dd
    unfold TileCalculator.calculate_wall_area
    rw [if_pos hcond]

/-- Witness for C7 at spec scenario B: width 10, length 12, height 8
with door deduction gives perimeter 42 and wall area 336; a zero width
is rejected. -/
theorem wall_area_geometry_witness :
    (0:ℚ) < 10 ∧ (0:ℚ) < 12 ∧ (0:ℚ) < 8 ∧
    TileCalculator.calculate_wall_area 10 12 8 true = .ok (42, 336) ∧
    TileCalculator.calculate_wall_area 0 12 8 true = .error .InvalidDimension := by
  refine ⟨by norm_num, by norm_num, by norm_num, ?_, ?_⟩
  · have hgeom := ((wall_area_geometry 10 12 8).1 (by norm_num) (by norm_num) (by norm_num)).1
    rw [hgeom]
    have hp : (⌈2*((10:ℚ)+12) - 2⌉ : ℤ) = 42 := by
      rw [Int.ceil_eq_iff]
      constructor <;> norm_num
    rw [hp]
    have ha : (⌈((42:ℤ) : ℚ) * 8⌉ : ℤ) = 336 := by
      rw [Int.ceil_eq_iff]
      constructor <;> push_cast <;> norm_num
    rw [ha]
  · exact (wall_area_geometry 0 12 8).2 (by norm_num) true

/-- Claim C4: for every non-empty cart committed by `save_bill`, the
bill's total_boxes is the sum of the items' boxes_needed and its
total_price is the sum of the items' total_price over the items where
it is present (an absent price contributes 0 but the item still
contributes its boxes). -/
theorem bill_totals_sum (cart : List CartItem) (b : Bill) (rest : List CartItem)
    (hne : cart ≠ [])
    (h : save_bill cart = (.ok b, rest)) :
    b.total_boxes = (cart.map (fun i => i.boxes_needed)).sum ∧
    b.total_price = (cart.map (fun i => i.total_price.getD 0)).sum := by
  unfold save_bill at h
  rw [if_neg (by simpa using hne)] at h
  rw [Prod.mk.injEq] at h
  obtain ⟨h1, h2⟩ := h
  rw [Except.ok.injEq] at h1
  subst h1
  refine ⟨rfl, ?_⟩
  show (cart.map priceContribution).sum = _
  have hpc : priceContribution = fun i : CartItem => i.total_price.getD 0 :=
    funext priceContribution_eq_getD
  rw [hpc]

/-- Concrete evaluation of `save_bill` at spec scenario D: items
(7 boxes, price 700) and (10 boxes, no price) give totals (17, 700). -/
theorem save_bill_eval_two_items :
    save_bill [⟨7, some 700⟩, ⟨10, none⟩] = (.ok ⟨17, 700⟩, []) := by
  norm_num [save_bill, priceContribution]

/-- Witness for C4 at spec scenario D. -/
theorem bill_totals_sum_witness :
    ([⟨7, some 700⟩, ⟨10, none⟩] : List CartItem) ≠ [] ∧
    ((17:ℤ) = (([⟨7, some 700⟩, ⟨10, none⟩] : List CartItem).map
        (fun i => i.boxes_needed)).sum ∧
     (700:ℚ) = (([⟨7, some 700⟩, ⟨10, none⟩] : List CartItem).map
        (fun i => i.total_price.getD 0)).sum) :=
  ⟨by simp, bill_totals_sum _ ⟨17, 700⟩ [] (by simp) save_bill_eval_two_items⟩

/-- Claim C5: `save_bill` fails with EmptyCart exactly when the cart is
empty, in which case the cart is left unchanged; any successful commit
leaves a cart of length 0. -/
theorem empty_cart_commit (cart : List CartItem) :
    ((save_bill cart).1 = .error .EmptyCart ↔ cart = []) ∧
    ((save_bill cart).1 = .error .EmptyCart → (save_bill cart).2 = cart) ∧
    (cart ≠ [] → ((save_bill cart).2).length = 0) := by
  rcases cart with _ | ⟨it, rest⟩ <;> simp [save_bill]

/-- Witness for C5: a one-item cart commits and is cleared; the empty
cart fails and is returned unchanged. -/
theorem empty_cart_commit_witness :
    (([⟨7, some 700⟩] : List CartItem) ≠ [] ∧
      ((save_bill [⟨7, some 700⟩]).2).length = 0) ∧
    (save_bill ([] : List CartItem)).2 = [] :=
  ⟨⟨by simp, (empty_cart_commit [⟨7, some 700⟩]).2.2 (by simp)⟩,
   (empty_cart_commit []).2.1 (by simp [save_bill])⟩

/-- Claim C6 is refuted by the source: the bill insert, each item
insert, and the totals update are three separately committed
transactions, so the durable state right after the item insert — the
bill row persisted with its item but with the initial zero aggregates —
is visible to concurrent readers, which the claim forbids. -/
theorem commit_zero_aggregates_visible :
    (save_bill_commit_trace ⟨[], []⟩ 1 [⟨7, some 700⟩])[1]? =
      some ⟨[⟨1, 0, 0⟩], [⟨1, 7, some 700⟩]⟩ := rfl

/-- Claim C8 counterexample: a present price of 0 yields an absent
total_price, not the present value 0 × boxes_needed that the claim
requires, because the route tests Python truthiness of the price. -/
theorem zero_price_total_absent :
    assemble_total_price (some 0) 5 = none ∧
    some ((0:ℚ) * ((5:ℤ) : ℚ)) ≠ (none : Option ℚ) := by
  constructor
  · simp [assemble_total_price]
  · simp

/-- Claim C8 amended: when price_per_box is present and non-zero the
item's total_price is price_per_box × boxes_needed; when price_per_box
is absent or zero, total_price is absent; in bill aggregation an absent
and a zero price both contribute 0. -/
theorem total_price_assembly (p : ℚ) (n m : ℤ) :
    (p ≠ 0 → assemble_total_price (some p) n = some (p * (n : ℚ))) ∧
    assemble_total_price (some 0) n = none ∧
    assemble_total_price none n = none ∧
    priceContribution ⟨m, some 0⟩ = 0 ∧
    priceContribution ⟨m, none⟩ = 0 := by
  refine ⟨?_, ?_, rfl, ?_, rfl⟩
  · intro hp
    simp [assemble_total_price, hp]
  · simp [assemble_total_price]
  · simp [priceContribution]

/-- Witness for C8 amended at price 700 and 7 boxes. -/
theorem total_price_assembly_witness :
    (700:ℚ) ≠ 0 ∧ assemble_total_price (some 700) 7 = some ((700:ℚ) * ((7:ℤ) : ℚ)) :=
  ⟨by norm_num, (total_price_assembly 700 7 0).1 (by norm_num)⟩

/-- Claim C9: the retention sweep deletes exactly the bills strictly
older than the cutoff `now - days` (a bill exactly at the boundary is
retained), returns the exact number deleted, and the old-bill count
uses the same strict predicate. -/
theorem purge_strict_cutoff (now days : ℚ) (bills : List StoredBill) (b : StoredBill) :
    (b ∈ (delete_older_than_days now days bills).1 ↔
      b ∈ bills ∧ ¬ b.created_at < now - days) ∧
    ((delete_older_than_days now days bills).2 +
      ((delete_older_than_days now days bills).1).length = bills.length) ∧
    (get_count_older_than_days now days bills = (delete_older_than_days now days bills).2) ∧
    (b ∈ bills → b.created_at = now - days →
      b ∈ (delete_older_than_days now days bills).1) := by
  refine ⟨?_, ?_, rfl, ?_⟩
  · simp [delete_older_than_days, List.mem_filter]
  · simp only [delete_older_than_days]
    exact filter_partition_length (fun x => decide (x.created_at < now - days)) bills
  · intro hb heq
    simp only [delete_older_than_days]
    rw [List.mem_filter]
    exact ⟨hb, by simp [heq]⟩

/-- Witness for C9: with now 40 and horizon 30 days, a bill created at
the boundary instant 10 is retained. -/
theorem purge_strict_cutoff_witness :
    (⟨3, 10⟩ : StoredBill) ∈ ([⟨1, 0⟩, ⟨2, 40⟩, ⟨3, 10⟩] : List StoredBill) ∧
    ((⟨3, 10⟩ : StoredBill).created_at = (40:ℚ) - 30) ∧
    (⟨3, 10⟩ : StoredBill) ∈ (delete_older_than_days 40 30 [⟨1, 0⟩, ⟨2, 40⟩, ⟨3, 10⟩]).1 :=
  ⟨by simp, by norm_num,
   (purge_strict_cutoff 40 30 [⟨1, 0⟩, ⟨2, 40⟩, ⟨3, 10⟩] ⟨3, 10⟩).2.2.2
     (by simp) (by norm_num)⟩
